import Mathlib

/-!
Verification of the EXE-GAN guided-recovery orchestration service
(`service/exegan_service.py`, with its transport adapter `service/api.py`).

The orchestrator (`ExeGanGuidedRecovery`) stages three input images into
fixed directories, invokes an external model process, and harvests the
output files it produces.  We embed the orchestrator shallowly:

* `PILImage` models a decoded `PIL.Image.Image` (width, height, mode,
  abstract pixel payload).
* A directory (`Dir`) is a list of entries: regular files with content,
  or subdirectories.  `FS` holds the four staging directories.
* The external process (`guided_recovery.py`, not part of this service)
  is a parameter `ProcBehavior`: its exit code and the files it writes
  into the output directory before exiting.
* `run` returns a `RunResult`: the outcome (`Except RunError`), the
  filesystem state at the moment of return or raise, and a trace of the
  filesystem/process events the orchestrator performed, in order.
-/

/-- A decoded in-memory image: `PIL.Image.Image`.  `mode` is the PIL mode
string (`"RGB"`, `"L"`, ...); `data` abstracts the pixel payload. -/
structure PILImage where
  width : Nat
  height : Nat
  mode : String
  data : Nat
deriving DecidableEq, Repr

/-- `img.size` in PIL: the `(width, height)` pair. -/
def PILImage.size (img : PILImage) : Nat × Nat := (img.width, img.height)

/-- `img.convert(m)`: same picture re-expressed in mode `m`
(used by the code only with `"RGB"`). -/
def PILImage.convert (img : PILImage) (m : String) : PILImage :=
  { img with mode := m }

/-- Content of a regular file: a PNG-encoded image (PNG round-trips the
image losslessly for the modes used here), or bytes that are not a
decodable image. -/
inductive FileContent where
  | image (img : PILImage)
  | raw (bytes : Nat)
deriving DecidableEq, Repr

/-- A directory entry: a regular file with its content, or a
subdirectory. -/
inductive Entry where
  | file (name : String) (content : FileContent)
  | subdir (name : String)
deriving DecidableEq, Repr

/-- `f.is_file()` for a directory entry. -/
def Entry.isFile : Entry → Bool
  | .file _ _ => true
  | .subdir _ => false

/-- The name of an entry. -/
def Entry.name : Entry → String
  | .file n _ => n
  | .subdir n => n

/-- A directory listing, in iteration order (`Path.iterdir`). -/
abbrev Dir := List Entry

/-- First entry with the given name, if any (`path.exists()` plus open). -/
def lookupEntry (d : Dir) (n : String) : Option Entry :=
  d.find? (fun e => e.name == n)

/-- The four staging directories owned by the orchestrator:
`images/mask`, `images/target`, `images/exemplar`, `recover_out`. -/
structure FS where
  maskDir : Dir
  gtDir : Dir
  exemplarDir : Dir
  outDir : Dir
deriving DecidableEq, Repr

/-- Constructor configuration of `ExeGanGuidedRecovery`: repository root
and checkpoint paths, plus the expected image edge size (default 256). -/
structure Config where
  repoRoot : String
  pspCkptRel : String
  exeganCkptRel : String
  sampleSize : Nat
deriving DecidableEq, Repr

/-- `self.psp_ckpt = self.repo_root / psp_ckpt_rel`. -/
def Config.pspCkpt (cfg : Config) : String :=
  cfg.repoRoot ++ "/" ++ cfg.pspCkptRel

/-- `self.exegan_ckpt = self.repo_root / exegan_ckpt_rel`. -/
def Config.exeganCkpt (cfg : Config) : String :=
  cfg.repoRoot ++ "/" ++ cfg.exeganCkptRel

/-- `self.mask_dir = repo_root / "images" / "mask"`. -/
def Config.maskDirPath (cfg : Config) : String :=
  cfg.repoRoot ++ "/images/mask"

/-- `self.gt_dir = repo_root / "images" / "target"`. -/
def Config.gtDirPath (cfg : Config) : String :=
  cfg.repoRoot ++ "/images/target"

/-- `self.exemplar_dir = repo_root / "images" / "exemplar"`. -/
def Config.exemplarDirPath (cfg : Config) : String :=
  cfg.repoRoot ++ "/images/exemplar"

/-- `self.out_dir = repo_root / "recover_out"`. -/
def Config.outDirPath (cfg : Config) : String :=
  cfg.repoRoot ++ "/recover_out"

/-- Errors `run` can raise, as structured values mirroring the Python
exceptions: `ValueError` from `_save_triplet` (interpolating which image,
the expected size and the received size into its message),
`CalledProcessError` from `subprocess.run(check=True)`, and
`FileNotFoundError` from `_load_outputs` (interpolating the missing
path). -/
inductive WhichImage where
  | test
  | mask
  | exemplar
deriving DecidableEq, Repr

inductive RunError where
  | validationError (which : WhichImage) (expected got : Nat × Nat)
  | processError (returncode : Int)
  | missingOutput (path : String)
  | undecodableOutput (path : String)
deriving DecidableEq, Repr

/-- Observable side effects of the orchestrator, in program order. -/
inductive Event where
  | delete (dirPath fname : String)
  | write (dirPath fname : String)
  | spawn (cmd : List String) (cwd : String)
deriving DecidableEq, Repr

/-- `e.isSpawn`. -/
def Event.isSpawn : Event → Bool
  | .spawn _ _ => true
  | _ => false

/-- `e.isWrite`. -/
def Event.isWrite : Event → Bool
  | .write _ _ => true
  | _ => false

/-- Behavior of the external `guided_recovery.py` process for one
invocation: the files it writes into the output directory, and its exit
code. -/
structure ProcBehavior where
  writes : List (String × FileContent)
  exitCode : Int
deriving DecidableEq, Repr

/-- One pass of `_clear_io_dirs` over a single directory:
`for f in d.iterdir(): if f.is_file(): f.unlink()`. -/
def clearDir (d : Dir) : Dir :=
  d.filter (fun e => ! e.isFile)

/-- The deletion events produced by clearing one directory. -/
def clearDirEvents (dirPath : String) (d : Dir) : List Event :=
  (d.filter Entry.isFile).map (fun e => Event.delete dirPath e.name)

/-- `_clear_io_dirs`: remove regular files from the mask, target,
exemplar and output directories, in that order. -/
def clearIoDirs (cfg : Config) (fs : FS) : FS × List Event :=
  (⟨clearDir fs.maskDir, clearDir fs.gtDir,
    clearDir fs.exemplarDir, clearDir fs.outDir⟩,
   clearDirEvents cfg.maskDirPath fs.maskDir
     ++ clearDirEvents cfg.gtDirPath fs.gtDir
     ++ clearDirEvents cfg.exemplarDirPath fs.exemplarDir
     ++ clearDirEvents cfg.outDirPath fs.outDir)

/-- `img.save(dir / name)`: persist the image as PNG under `name`,
overwriting a same-named regular file if present. -/
def writeFile (d : Dir) (n : String) (c : FileContent) : Dir :=
  d.filter (fun e => ! (e.isFile && e.name == n)) ++ [Entry.file n c]

/-- The staged filename `f"{index}.png"`. -/
def stagedName (index : Nat) : String :=
  toString index ++ ".png"

/-- The filesystem after the three saves of `_save_triplet` succeed
(`test_img → gt_dir`, `mask_img → mask_dir`, `exemplar_img →
exemplar_dir`, each under `{index}.png`; the output directory is not
touched). -/
def stagedFS (test mask exemplar : PILImage) (index : Nat) (fs : FS) : FS :=
  ⟨writeFile fs.maskDir (stagedName index) (.image mask),
   writeFile fs.gtDir (stagedName index) (.image test),
   writeFile fs.exemplarDir (stagedName index) (.image exemplar),
   fs.outDir⟩

/-- The write events of `_save_triplet`, in program order
(test, then mask, then exemplar). -/
def stagedEvents (cfg : Config) (index : Nat) : List Event :=
  [Event.write cfg.gtDirPath (stagedName index),
   Event.write cfg.maskDirPath (stagedName index),
   Event.write cfg.exemplarDirPath (stagedName index)]

/-- `_save_triplet`: validate each image's size against
`(sample_size, sample_size)` (test, then mask, then exemplar), raising
`ValueError` on the first mismatch; on success save the images as-is. -/
def saveTriplet (cfg : Config) (test mask exemplar : PILImage)
    (index : Nat) (fs : FS) : Except RunError (FS × List Event) :=
  if test.size ≠ (cfg.sampleSize, cfg.sampleSize) then
    .error (.validationError .test (cfg.sampleSize, cfg.sampleSize) test.size)
  else if mask.size ≠ (cfg.sampleSize, cfg.sampleSize) then
    .error (.validationError .mask (cfg.sampleSize, cfg.sampleSize) mask.size)
  else if exemplar.size ≠ (cfg.sampleSize, cfg.sampleSize) then
    .error (.validationError .exemplar (cfg.sampleSize, cfg.sampleSize) exemplar.size)
  else
    .ok (stagedFS test mask exemplar index fs, stagedEvents cfg index)

/-- The argument vector `_run_script` passes to `subprocess.run`. -/
def runScriptCmd (cfg : Config) (sampleTimes : Int) : List String :=
  ["python", "guided_recovery.py",
   "--psp_checkpoint_path", cfg.pspCkpt,
   "--ckpt", cfg.exeganCkpt,
   "--masked_dir", cfg.maskDirPath,
   "--gt_dir", cfg.gtDirPath,
   "--exemplar_dir", cfg.exemplarDirPath,
   "--sample_times", toString sampleTimes,
   "--eval_dir", cfg.outDirPath]

/-- Apply the external process's writes to the output directory. -/
def applyProcWrites (d : Dir) : List (String × FileContent) → Dir
  | [] => d
  | (n, c) :: rest => applyProcWrites (writeFile d n c) rest

/-- The output filename convention `f"{index}_{j}_inpaint.png"`. -/
def outputFname (index j : Nat) : String :=
  toString index ++ "_" ++ toString j ++ "_inpaint.png"

/-- The full path of output sample `j`. -/
def outputPath (cfg : Config) (index j : Nat) : String :=
  cfg.outDirPath ++ "/" ++ outputFname index j

/-- The loop body of `_load_outputs` over the remaining sample indices:
check `path.exists()`, raise `FileNotFoundError` naming the path if
absent, else `Image.open(path).convert("RGB")`. -/
def loadOutputsAux (cfg : Config) (out : Dir) (index : Nat) :
    List Nat → Except RunError (List PILImage)
  | [] => .ok []
  | j :: js =>
    match lookupEntry out (outputFname index j) with
    | none => .error (.missingOutput (outputPath cfg index j))
    | some (Entry.subdir _) => .error (.undecodableOutput (outputPath cfg index j))
    | some (Entry.file _ (FileContent.raw _)) =>
        .error (.undecodableOutput (outputPath cfg index j))
    | some (Entry.file _ (FileContent.image img)) =>
        match loadOutputsAux cfg out index js with
        | .error e => .error e
        | .ok imgs => .ok (img.convert "RGB" :: imgs)

/-- `_load_outputs`: collect `sample_times` images in ascending sample
order (`range(sample_times)` — empty when `sample_times ≤ 0`). -/
def loadOutputs (cfg : Config) (out : Dir) (index : Nat)
    (sampleTimes : Int) : Except RunError (List PILImage) :=
  loadOutputsAux cfg out index (List.range sampleTimes.toNat)

deriving instance DecidableEq for Except

/-- The outcome of a `run` call: the result or the exception, the
filesystem at the moment `run` returned or raised, and the event trace
up to that moment. -/
structure RunResult where
  outcome : Except RunError (List PILImage)
  fs : FS
  trace : List Event
deriving DecidableEq, Repr

/-- `run`: clear the staging directories, validate and stage the triplet
under index 0, launch `guided_recovery.py` synchronously (its writes to
the output directory happen before its exit status is observed;
`check=True` raises on a non-zero status), then harvest the outputs. -/
def run (cfg : Config) (env : ProcBehavior) (test mask exemplar : PILImage)
    (sampleTimes : Int) (fs : FS) : RunResult :=
  let cleared := clearIoDirs cfg fs
  let fs1 := cleared.1
  let ev1 := cleared.2
  match saveTriplet cfg test mask exemplar 0 fs1 with
  | .error e => ⟨.error e, fs1, ev1⟩
  | .ok (fs2, ev2) =>
    let trace := ev1 ++ ev2 ++ [Event.spawn (runScriptCmd cfg sampleTimes) cfg.repoRoot]
    let fs3 : FS := { fs2 with outDir := applyProcWrites fs2.outDir env.writes }
    if env.exitCode ≠ 0 then
      ⟨.error (.processError env.exitCode), fs3, trace⟩
    else
      match loadOutputs cfg fs3.outDir 0 sampleTimes with
      | .error e => ⟨.error e, fs3, trace⟩
      | .ok imgs => ⟨.ok imgs, fs3, trace⟩

/-- `__init__`'s directory layout, before the `mkdir` loop: each of the
four staging directories either already exists with some contents or is
absent. -/
structure StagingLayout where
  maskDir : Option Dir
  gtDir : Option Dir
  exemplarDir : Option Dir
  outDir : Option Dir
deriving DecidableEq, Repr

/-- The `mkdir(parents=True, exist_ok=True)` loop of `__init__`: create
each absent staging directory empty, keep an existing one as it is. -/
def initDirs (l : StagingLayout) : StagingLayout :=
  ⟨some (l.maskDir.getD []), some (l.gtDir.getD []),
   some (l.exemplarDir.getD []), some (l.outDir.getD [])⟩

/-- The filesystem at the moment just after the external process exits,
for a call whose validation passed: staged triplet plus the process's
writes in the output directory. -/
def postFS (cfg : Config) (env : ProcBehavior)
    (test mask exemplar : PILImage) (fs : FS) : FS :=
  { stagedFS test mask exemplar 0 (clearIoDirs cfg fs).1 with
    outDir := applyProcWrites (clearDir fs.outDir) env.writes }

/-- The orchestrator's event trace once the process has been spawned. -/
def postTrace (cfg : Config) (sampleTimes : Int) (fs : FS) : List Event :=
  (clearIoDirs cfg fs).2 ++ stagedEvents cfg 0
    ++ [Event.spawn (runScriptCmd cfg sampleTimes) cfg.repoRoot]

theorem saveTriplet_eq_ok (cfg : Config) (test mask exemplar : PILImage)
    (index : Nat) (fs : FS)
    (ht : test.size = (cfg.sampleSize, cfg.sampleSize))
    (hm : mask.size = (cfg.sampleSize, cfg.sampleSize))
    (he : exemplar.size = (cfg.sampleSize, cfg.sampleSize)) :
    saveTriplet cfg test mask exemplar index fs =
      .ok (stagedFS test mask exemplar index fs, stagedEvents cfg index) := by
  simp [saveTriplet, ht, hm, he]

theorem saveTriplet_eq_err_test (cfg : Config) (test mask exemplar : PILImage)
    (index : Nat) (fs : FS)
    (ht : test.size ≠ (cfg.sampleSize, cfg.sampleSize)) :
    saveTriplet cfg test mask exemplar index fs =
      .error (.validationError .test (cfg.sampleSize, cfg.sampleSize) test.size) := by
  simp [saveTriplet, ht]

theorem saveTriplet_eq_err_mask (cfg : Config) (test mask exemplar : PILImage)
    (index : Nat) (fs : FS)
    (ht : test.size = (cfg.sampleSize, cfg.sampleSize))
    (hm : mask.size ≠ (cfg.sampleSize, cfg.sampleSize)) :
    saveTriplet cfg test mask exemplar index fs =
      .error (.validationError .mask (cfg.sampleSize, cfg.sampleSize) mask.size) := by
  simp [saveTriplet, ht, hm]

theorem saveTriplet_eq_err_exemplar (cfg : Config) (test mask exemplar : PILImage)
    (index : Nat) (fs : FS)
    (ht : test.size = (cfg.sampleSize, cfg.sampleSize))
    (hm : mask.size = (cfg.sampleSize, cfg.sampleSize))
    (he : exemplar.size ≠ (cfg.sampleSize, cfg.sampleSize)) :
    saveTriplet cfg test mask exemplar index fs =
      .error (.validationError .exemplar (cfg.sampleSize, cfg.sampleSize) exemplar.size) := by
  simp [saveTriplet, ht, hm, he]

theorem run_of_save_error (cfg : Config) (env : ProcBehavior)
    (test mask exemplar : PILImage) (n : Int) (fs : FS) (e : RunError)
    (hsave : saveTriplet cfg test mask exemplar 0 (clearIoDirs cfg fs).1 = .error e) :
    run cfg env test mask exemplar n fs =
      ⟨.error e, (clearIoDirs cfg fs).1, (clearIoDirs cfg fs).2⟩ := by
  simp [run, hsave]

theorem run_valid_exit_nonzero (cfg : Config) (env : ProcBehavior)
    (test mask exemplar : PILImage) (n : Int) (fs : FS)
    (ht : test.size = (cfg.sampleSize, cfg.sampleSize))
    (hm : mask.size = (cfg.sampleSize, cfg.sampleSize))
    (he : exemplar.size = (cfg.sampleSize, cfg.sampleSize))
    (hexit : env.exitCode ≠ 0) :
    run cfg env test mask exemplar n fs =
      ⟨.error (.processError env.exitCode),
       postFS cfg env test mask exemplar fs, postTrace cfg n fs⟩ := by
  simp [run, saveTriplet_eq_ok cfg test mask exemplar 0 _ ht hm he, hexit,
        postFS, postTrace, stagedFS, clearIoDirs]

theorem run_valid_exit_zero (cfg : Config) (env : ProcBehavior)
    (test mask exemplar : PILImage) (n : Int) (fs : FS)
    (ht : test.size = (cfg.sampleSize, cfg.sampleSize))
    (hm : mask.size = (cfg.sampleSize, cfg.sampleSize))
    (he : exemplar.size = (cfg.sampleSize, cfg.sampleSize))
    (hexit : env.exitCode = 0) :
    (run cfg env test mask exemplar n fs).outcome =
      loadOutputs cfg (applyProcWrites (clearDir fs.outDir) env.writes) 0 n
    ∧ (run cfg env test mask exemplar n fs).fs = postFS cfg env test mask exemplar fs
    ∧ (run cfg env test mask exemplar n fs).trace = postTrace cfg n fs := by
  cases hload : loadOutputs cfg (applyProcWrites (clearDir fs.outDir) env.writes) 0 n with
  | error e =>
      simp [run, saveTriplet_eq_ok cfg test mask exemplar 0 _ ht hm he, hexit,
            postFS, postTrace, stagedFS, clearIoDirs, hload]
  | ok imgs =>
      simp [run, saveTriplet_eq_ok cfg test mask exemplar 0 _ ht hm he, hexit,
            postFS, postTrace, stagedFS, clearIoDirs, hload]

theorem clearIoDirs_events_delete (cfg : Config) (fs : FS) :
    ∀ ev ∈ (clearIoDirs cfg fs).2, ev.isWrite = false ∧ ev.isSpawn = false := by
  intro ev hev
  simp only [clearIoDirs, clearDirEvents, List.mem_append, List.mem_map] at hev
  rcases hev with ((⟨e, _, rfl⟩ | ⟨e, _, rfl⟩) | ⟨e, _, rfl⟩) | ⟨e, _, rfl⟩ <;>
    exact ⟨rfl, rfl⟩

theorem clearIoDirs_filter_spawn (cfg : Config) (fs : FS) :
    (clearIoDirs cfg fs).2.filter Event.isSpawn = [] := by
  rw [List.filter_eq_nil_iff]
  intro ev hev
  have h := (clearIoDirs_events_delete cfg fs ev hev).2
  simp [h]

theorem clearDir_no_files (d : Dir) : (clearDir d).filter Entry.isFile = [] := by
  rw [List.filter_eq_nil_iff]
  intro e he
  rw [clearDir, List.mem_filter] at he
  simp only [Bool.not_eq_true'] at he
  simp [he.2]

theorem filter_isFile_of_filter (d : Dir) (q : Entry → Bool)
    (hd : d.filter Entry.isFile = []) :
    (d.filter q).filter Entry.isFile = [] := by
  rw [List.filter_comm, hd, List.filter_nil]

theorem writeFile_files (d : Dir) (n : String) (c : FileContent)
    (hd : d.filter Entry.isFile = []) :
    (writeFile d n c).filter Entry.isFile = [Entry.file n c] := by
  rw [writeFile, List.filter_append, filter_isFile_of_filter d _ hd]
  rfl

theorem loadOutputsAux_all_ok (cfg : Config) (out : Dir) (index : Nat)
    (imgs : Nat → PILImage) (js : List Nat)
    (h : ∀ j ∈ js, lookupEntry out (outputFname index j) =
      some (Entry.file (outputFname index j) (FileContent.image (imgs j)))) :
    loadOutputsAux cfg out index js =
      .ok (js.map (fun j => (imgs j).convert "RGB")) := by
  induction js with
  | nil => rfl
  | cons j js ih =>
      have hj := h j (List.mem_cons_self j js)
      have hrest := ih (fun x hx => h x (List.mem_cons_of_mem _ hx))
      simp [loadOutputsAux, hj, hrest]

theorem loadOutputsAux_first_missing (cfg : Config) (out : Dir) (index : Nat)
    (imgs : Nat → PILImage) (js1 : List Nat) (j0 : Nat) (js2 : List Nat)
    (hpres : ∀ j ∈ js1, lookupEntry out (outputFname index j) =
      some (Entry.file (outputFname index j) (FileContent.image (imgs j))))
    (hmiss : lookupEntry out (outputFname index j0) = none) :
    loadOutputsAux cfg out index (js1 ++ j0 :: js2) =
      .error (.missingOutput (outputPath cfg index j0)) := by
  induction js1 with
  | nil => simp [loadOutputsAux, hmiss]
  | cons a as ih =>
      have ha := hpres a (List.mem_cons_self a as)
      have hrest := ih (fun x hx => hpres x (List.mem_cons_of_mem _ hx))
      simp [loadOutputsAux, ha, hrest]

theorem range_split_at (j0 k : Nat) :
    List.range (j0 + (k + 1)) =
      List.range j0 ++ j0 :: (List.range k).map (fun i => j0 + (i + 1)) := by
  rw [List.range_add, List.range_succ_eq_map]
  simp [List.map_map, Function.comp, Nat.succ_eq_add_one]

/-- A concrete configuration for witnesses: the default checkpoints and
edge size of `ExeGanGuidedRecovery.__init__`. -/
def sampleCfg : Config :=
  ⟨"/srv/EXE-GAN", "pre-train/psp_ffhq_encode.pt", "checkpoint/EXE_GAN_model.pt", 256⟩

def sampleTest : PILImage := ⟨256, 256, "RGB", 1⟩

def sampleMask : PILImage := ⟨256, 256, "L", 2⟩

def sampleExemplar : PILImage := ⟨256, 256, "RGB", 3⟩

/-- An input image whose dimensions differ from the expected 256 by 256. -/
def undersized : PILImage := ⟨128, 200, "RGB", 4⟩

/-- The image the external process writes for sample index `j`. -/
def sampleOut (j : Nat) : PILImage := ⟨256, 256, "RGB", 10 + j⟩

/-- A staging area holding residue of a previous request: a stale file
and a subdirectory in the mask directory, and a previous output file. -/
def staleFS : FS :=
  ⟨[Entry.file "stale.png" (.raw 5), Entry.subdir "cache"], [], [],
   [Entry.file "0_0_inpaint.png" (.image (sampleOut 0))]⟩

/-- A process run that succeeds and writes two output samples. -/
def okEnv2 : ProcBehavior :=
  ⟨[("0_0_inpaint.png", .image (sampleOut 0)),
    ("0_1_inpaint.png", .image (sampleOut 1))], 0⟩

/-- A process run that exits with status 3 writing nothing. -/
def failEnv : ProcBehavior := ⟨[], 3⟩

/-- A process run that exits 0 but writes only sample index 0. -/
def shortEnv : ProcBehavior := ⟨[("0_0_inpaint.png", .image (sampleOut 0))], 0⟩

/-- C1: for every valid input triple of images of the expected size and
every `sample_times = n ≥ 1`, if the external process exits 0 and every
expected output file `0_{j}_inpaint.png` (`j = 0..n-1`) exists as an
image, `run` returns exactly `n` images, in ascending sample-index
order, each converted to RGB; the result is determined by the inputs,
hence stable and reproducible. -/
theorem run_success_returns_ordered_samples
    (cfg : Config) (env : ProcBehavior) (fs : FS)
    (test mask exemplar : PILImage) (n : Int) (imgs : Nat → PILImage)
    (hn : 1 ≤ n)
    (ht : test.size = (cfg.sampleSize, cfg.sampleSize))
    (hm : mask.size = (cfg.sampleSize, cfg.sampleSize))
    (he : exemplar.size = (cfg.sampleSize, cfg.sampleSize))
    (hexit : env.exitCode = 0)
    (hout : ∀ j < n.toNat,
      lookupEntry (applyProcWrites (clearDir fs.outDir) env.writes) (outputFname 0 j) =
        some (Entry.file (outputFname 0 j) (FileContent.image (imgs j)))) :
    (run cfg env test mask exemplar n fs).outcome =
      .ok ((List.range n.toNat).map (fun j => (imgs j).convert "RGB"))
    ∧ ((List.range n.toNat).map (fun j => (imgs j).convert "RGB")).length = n.toNat
    ∧ ∀ img ∈ (List.range n.toNat).map (fun j => (imgs j).convert "RGB"),
        img.mode = "RGB" := by
  have hload : loadOutputs cfg (applyProcWrites (clearDir fs.outDir) env.writes) 0 n =
      .ok ((List.range n.toNat).map (fun j => (imgs j).convert "RGB")) := by
    rw [loadOutputs]
    exact loadOutputsAux_all_ok cfg _ 0 imgs _
      (fun j hj => hout j (List.mem_range.mp hj))
  have h := run_valid_exit_zero cfg env test mask exemplar n fs ht hm he hexit
  refine ⟨h.1.trans hload, by simp, ?_⟩
  intro img himg
  simp only [List.mem_map] at himg
  rcases himg with ⟨j, _, rfl⟩
  rfl

theorem run_success_returns_ordered_samples_witness :
    (run sampleCfg okEnv2 sampleTest sampleMask sampleExemplar 2 staleFS).outcome =
      .ok ((List.range (2 : Int).toNat).map (fun j => (sampleOut j).convert "RGB"))
    ∧ ((List.range (2 : Int).toNat).map (fun j => (sampleOut j).convert "RGB")).length =
        (2 : Int).toNat
    ∧ ∀ img ∈ (List.range (2 : Int).toNat).map (fun j => (sampleOut j).convert "RGB"),
        img.mode = "RGB" :=
  run_success_returns_ordered_samples sampleCfg okEnv2 staleFS sampleTest sampleMask
    sampleExemplar 2 sampleOut (by decide) (by decide) (by decide) (by decide)
    (by decide) (by decide)

/-- C2 counterexample: a call with an undersized test image on a staging
area holding a stale file raises the validation error, yet a file has
already been deleted by then — `_clear_io_dirs` runs before
`_save_triplet`, so the claim "no file has been created, modified, or
deleted at the moment the validation error is raised" fails. -/
theorem run_validation_after_deletion_cex :
    (run sampleCfg okEnv2 undersized sampleMask sampleExemplar 1 staleFS).outcome =
      .error (.validationError .test (256, 256) (128, 200))
    ∧ Event.delete sampleCfg.maskDirPath "stale.png" ∈
        (run sampleCfg okEnv2 undersized sampleMask sampleExemplar 1 staleFS).trace := by
  exact ⟨rfl, by decide⟩

/-- C2 (amended): when some input image's dimensions differ from the
expected size, `run` raises the validation error after the clearing
step and before any other effect: at that moment no file has been
created or modified and no process has been spawned; the only
filesystem mutations are the deletions performed by `_clear_io_dirs`. -/
theorem run_validation_only_clearing_mutations
    (cfg : Config) (env : ProcBehavior) (test mask exemplar : PILImage)
    (n : Int) (fs : FS)
    (hbad : test.size ≠ (cfg.sampleSize, cfg.sampleSize) ∨
            mask.size ≠ (cfg.sampleSize, cfg.sampleSize) ∨
            exemplar.size ≠ (cfg.sampleSize, cfg.sampleSize)) :
    (∃ w g, (run cfg env test mask exemplar n fs).outcome =
        .error (.validationError w (cfg.sampleSize, cfg.sampleSize) g))
    ∧ (run cfg env test mask exemplar n fs).trace = (clearIoDirs cfg fs).2
    ∧ (run cfg env test mask exemplar n fs).fs = (clearIoDirs cfg fs).1
    ∧ ∀ ev ∈ (run cfg env test mask exemplar n fs).trace,
        ev.isWrite = false ∧ ev.isSpawn = false := by
  by_cases ht : test.size = (cfg.sampleSize, cfg.sampleSize)
  · by_cases hm : mask.size = (cfg.sampleSize, cfg.sampleSize)
    · have he : exemplar.size ≠ (cfg.sampleSize, cfg.sampleSize) := by tauto
      rw [run_of_save_error cfg env test mask exemplar n fs _
        (saveTriplet_eq_err_exemplar cfg test mask exemplar 0 _ ht hm he)]
      exact ⟨⟨.exemplar, exemplar.size, rfl⟩, rfl, rfl, clearIoDirs_events_delete cfg fs⟩
    · rw [run_of_save_error cfg env test mask exemplar n fs _
        (saveTriplet_eq_err_mask cfg test mask exemplar 0 _ ht hm)]
      exact ⟨⟨.mask, mask.size, rfl⟩, rfl, rfl, clearIoDirs_events_delete cfg fs⟩
  · rw [run_of_save_error cfg env test mask exemplar n fs _
      (saveTriplet_eq_err_test cfg test mask exemplar 0 _ ht)]
    exact ⟨⟨.test, test.size, rfl⟩, rfl, rfl, clearIoDirs_events_delete cfg fs⟩

theorem run_validation_only_clearing_mutations_witness :
    (∃ w g, (run sampleCfg okEnv2 undersized sampleMask sampleExemplar 1 staleFS).outcome =
        .error (.validationError w (sampleCfg.sampleSize, sampleCfg.sampleSize) g))
    ∧ (run sampleCfg okEnv2 undersized sampleMask sampleExemplar 1 staleFS).trace =
        (clearIoDirs sampleCfg staleFS).2
    ∧ (run sampleCfg okEnv2 undersized sampleMask sampleExemplar 1 staleFS).fs =
        (clearIoDirs sampleCfg staleFS).1
    ∧ ∀ ev ∈ (run sampleCfg okEnv2 undersized sampleMask sampleExemplar 1 staleFS).trace,
        ev.isWrite = false ∧ ev.isSpawn = false :=
  run_validation_only_clearing_mutations sampleCfg okEnv2 undersized sampleMask
    sampleExemplar 1 staleFS (Or.inl (by decide))

/-- C3: when the external process exits non-zero, `run` propagates the
process failure (no retry: the trace holds exactly one spawn event) and
returns no output images — even when output files from a previous run
were present in the output directory beforehand (any `fs`). -/
theorem run_process_failure_propagates
    (cfg : Config) (env : ProcBehavior) (fs : FS)
    (test mask exemplar : PILImage) (n : Int)
    (ht : test.size = (cfg.sampleSize, cfg.sampleSize))
    (hm : mask.size = (cfg.sampleSize, cfg.sampleSize))
    (he : exemplar.size = (cfg.sampleSize, cfg.sampleSize))
    (hexit : env.exitCode ≠ 0) :
    (run cfg env test mask exemplar n fs).outcome =
      .error (.processError env.exitCode)
    ∧ (run cfg env test mask exemplar n fs).trace.filter Event.isSpawn =
        [Event.spawn (runScriptCmd cfg n) cfg.repoRoot] := by
  rw [run_valid_exit_nonzero cfg env test mask exemplar n fs ht hm he hexit]
  refine ⟨rfl, ?_⟩
  simp [postTrace, List.filter_append, clearIoDirs_filter_spawn, stagedEvents,
        Event.isSpawn]

theorem run_process_failure_propagates_witness :
    (run sampleCfg failEnv sampleTest sampleMask sampleExemplar 1 staleFS).outcome =
      .error (.processError failEnv.exitCode)
    ∧ (run sampleCfg failEnv sampleTest sampleMask sampleExemplar 1 staleFS).trace.filter
        Event.isSpawn = [Event.spawn (runScriptCmd sampleCfg 1) sampleCfg.repoRoot] :=
  run_process_failure_propagates sampleCfg failEnv staleFS sampleTest sampleMask
    sampleExemplar 1 (by decide) (by decide) (by decide) (by decide)

/-- C5: when some input image's dimensions differ from the expected
`(sample_size, sample_size)`, `run` fails with a validation error that
names the offending image and carries the expected and the received
size, and no file is written to any staging directory during the call. -/
theorem run_validation_identifies_offender
    (cfg : Config) (env : ProcBehavior) (test mask exemplar : PILImage)
    (n : Int) (fs : FS)
    (hbad : test.size ≠ (cfg.sampleSize, cfg.sampleSize) ∨
            mask.size ≠ (cfg.sampleSize, cfg.sampleSize) ∨
            exemplar.size ≠ (cfg.sampleSize, cfg.sampleSize)) :
    ∃ w got,
      (run cfg env test mask exemplar n fs).outcome =
        .error (.validationError w (cfg.sampleSize, cfg.sampleSize) got)
      ∧ ((w = .test ∧ got = test.size) ∨ (w = .mask ∧ got = mask.size) ∨
         (w = .exemplar ∧ got = exemplar.size))
      ∧ got ≠ (cfg.sampleSize, cfg.sampleSize)
      ∧ ∀ ev ∈ (run cfg env test mask exemplar n fs).trace, ev.isWrite = false := by
  by_cases ht : test.size = (cfg.sampleSize, cfg.sampleSize)
  · by_cases hm : mask.size = (cfg.sampleSize, cfg.sampleSize)
    · have he : exemplar.size ≠ (cfg.sampleSize, cfg.sampleSize) := by tauto
      rw [run_of_save_error cfg env test mask exemplar n fs _
        (saveTriplet_eq_err_exemplar cfg test mask exemplar 0 _ ht hm he)]
      exact ⟨.exemplar, exemplar.size, rfl, Or.inr (Or.inr ⟨rfl, rfl⟩), he,
        fun ev hev => (clearIoDirs_events_delete cfg fs ev hev).1⟩
    · rw [run_of_save_error cfg env test mask exemplar n fs _
        (saveTriplet_eq_err_mask cfg test mask exemplar 0 _ ht hm)]
      exact ⟨.mask, mask.size, rfl, Or.inr (Or.inl ⟨rfl, rfl⟩), hm,
        fun ev hev => (clearIoDirs_events_delete cfg fs ev hev).1⟩
  · rw [run_of_save_error cfg env test mask exemplar n fs _
      (saveTriplet_eq_err_test cfg test mask exemplar 0 _ ht)]
    exact ⟨.test, test.size, rfl, Or.inl ⟨rfl, rfl⟩, ht,
      fun ev hev => (clearIoDirs_events_delete cfg fs ev hev).1⟩

theorem run_validation_identifies_offender_witness :
    ∃ w got,
      (run sampleCfg okEnv2 sampleTest undersized sampleExemplar 1 staleFS).outcome =
        .error (.validationError w (sampleCfg.sampleSize, sampleCfg.sampleSize) got)
      ∧ ((w = .test ∧ got = sampleTest.size) ∨ (w = .mask ∧ got = undersized.size) ∨
         (w = .exemplar ∧ got = sampleExemplar.size))
      ∧ got ≠ (sampleCfg.sampleSize, sampleCfg.sampleSize)
      ∧ ∀ ev ∈ (run sampleCfg okEnv2 sampleTest undersized sampleExemplar 1 staleFS).trace,
          ev.isWrite = false :=
  run_validation_identifies_offender sampleCfg okEnv2 sampleTest undersized
    sampleExemplar 1 staleFS (Or.inr (Or.inl (by decide)))

/-- C4: when the external process exits 0 but the output file for the
least sample index `j0 < n` is absent (all smaller indices present as
images), `run` fails with an error naming the path of
`0_{j0}_inpaint.png`; no partial sequence is returned. -/
theorem run_missing_output_names_first
    (cfg : Config) (env : ProcBehavior) (fs : FS)
    (test mask exemplar : PILImage) (n : Int) (j0 : Nat) (imgs : Nat → PILImage)
    (ht : test.size = (cfg.sampleSize, cfg.sampleSize))
    (hm : mask.size = (cfg.sampleSize, cfg.sampleSize))
    (he : exemplar.size = (cfg.sampleSize, cfg.sampleSize))
    (hexit : env.exitCode = 0)
    (hj : j0 < n.toNat)
    (hmiss : lookupEntry (applyProcWrites (clearDir fs.outDir) env.writes)
      (outputFname 0 j0) = none)
    (hprev : ∀ j < j0,
      lookupEntry (applyProcWrites (clearDir fs.outDir) env.writes) (outputFname 0 j) =
        some (Entry.file (outputFname 0 j) (FileContent.image (imgs j)))) :
    (run cfg env test mask exemplar n fs).outcome =
      .error (.missingOutput (outputPath cfg 0 j0)) := by
  have h := run_valid_exit_zero cfg env test mask exemplar n fs ht hm he hexit
  rw [h.1, loadOutputs]
  have hsplit : List.range n.toNat =
      List.range j0 ++ j0 :: (List.range (n.toNat - j0 - 1)).map (fun i => j0 + (i + 1)) := by
    have harith : n.toNat = j0 + ((n.toNat - j0 - 1) + 1) := by omega
    conv_lhs => rw [harith]
    exact range_split_at j0 (n.toNat - j0 - 1)
  rw [hsplit]
  exact loadOutputsAux_first_missing cfg _ 0 imgs (List.range j0) j0 _
    (fun j hj2 => hprev j (List.mem_range.mp hj2)) hmiss

theorem run_missing_output_names_first_witness :
    (run sampleCfg shortEnv sampleTest sampleMask sampleExemplar 3 staleFS).outcome =
      .error (.missingOutput (outputPath sampleCfg 0 1)) :=
  run_missing_output_names_first sampleCfg shortEnv staleFS sampleTest sampleMask
    sampleExemplar 3 1 sampleOut (by decide) (by decide) (by decide) (by decide)
    (by decide) (by decide) (by decide)

/-- C6: `_clear_io_dirs` removes every regular file from each of the
four staging directories and leaves subdirectories untouched; hence
after a call's clearing-and-staging steps, the input staging
directories hold exactly the files staged by that call. -/
theorem run_clearing_removes_only_files
    (cfg : Config) (env : ProcBehavior) (fs : FS)
    (test mask exemplar : PILImage) (n : Int)
    (ht : test.size = (cfg.sampleSize, cfg.sampleSize))
    (hm : mask.size = (cfg.sampleSize, cfg.sampleSize))
    (he : exemplar.size = (cfg.sampleSize, cfg.sampleSize)) :
    ((clearIoDirs cfg fs).1.maskDir = fs.maskDir.filter (fun e => ! e.isFile)
      ∧ (clearIoDirs cfg fs).1.gtDir = fs.gtDir.filter (fun e => ! e.isFile)
      ∧ (clearIoDirs cfg fs).1.exemplarDir = fs.exemplarDir.filter (fun e => ! e.isFile)
      ∧ (clearIoDirs cfg fs).1.outDir = fs.outDir.filter (fun e => ! e.isFile))
    ∧ ((clearIoDirs cfg fs).1.maskDir.filter Entry.isFile = []
      ∧ (clearIoDirs cfg fs).1.gtDir.filter Entry.isFile = []
      ∧ (clearIoDirs cfg fs).1.exemplarDir.filter Entry.isFile = []
      ∧ (clearIoDirs cfg fs).1.outDir.filter Entry.isFile = [])
    ∧ ((run cfg env test mask exemplar n fs).fs.maskDir.filter Entry.isFile =
        [Entry.file (stagedName 0) (FileContent.image mask)]
      ∧ (run cfg env test mask exemplar n fs).fs.gtDir.filter Entry.isFile =
          [Entry.file (stagedName 0) (FileContent.image test)]
      ∧ (run cfg env test mask exemplar n fs).fs.exemplarDir.filter Entry.isFile =
          [Entry.file (stagedName 0) (FileContent.image exemplar)]) := by
  have hfs : (run cfg env test mask exemplar n fs).fs =
      postFS cfg env test mask exemplar fs := by
    by_cases hexit : env.exitCode = 0
    · exact (run_valid_exit_zero cfg env test mask exemplar n fs ht hm he hexit).2.1
    · rw [run_valid_exit_nonzero cfg env test mask exemplar n fs ht hm he hexit]
  refine ⟨⟨rfl, rfl, rfl, rfl⟩,
    ⟨clearDir_no_files _, clearDir_no_files _, clearDir_no_files _, clearDir_no_files _⟩,
    ?_⟩
  rw [hfs]
  exact ⟨writeFile_files _ _ _ (clearDir_no_files _),
    writeFile_files _ _ _ (clearDir_no_files _),
    writeFile_files _ _ _ (clearDir_no_files _)⟩

theorem run_clearing_removes_only_files_witness :
    ((clearIoDirs sampleCfg staleFS).1.maskDir =
        staleFS.maskDir.filter (fun e => ! e.isFile)
      ∧ (clearIoDirs sampleCfg staleFS).1.gtDir =
          staleFS.gtDir.filter (fun e => ! e.isFile)
      ∧ (clearIoDirs sampleCfg staleFS).1.exemplarDir =
          staleFS.exemplarDir.filter (fun e => ! e.isFile)
      ∧ (clearIoDirs sampleCfg staleFS).1.outDir =
          staleFS.outDir.filter (fun e => ! e.isFile))
    ∧ ((clearIoDirs sampleCfg staleFS).1.maskDir.filter Entry.isFile = []
      ∧ (clearIoDirs sampleCfg staleFS).1.gtDir.filter Entry.isFile = []
      ∧ (clearIoDirs sampleCfg staleFS).1.exemplarDir.filter Entry.isFile = []
      ∧ (clearIoDirs sampleCfg staleFS).1.outDir.filter Entry.isFile = [])
    ∧ ((run sampleCfg okEnv2 sampleTest sampleMask sampleExemplar 2 staleFS).fs.maskDir.filter
        Entry.isFile = [Entry.file (stagedName 0) (FileContent.image sampleMask)]
      ∧ (run sampleCfg okEnv2 sampleTest sampleMask sampleExemplar 2 staleFS).fs.gtDir.filter
          Entry.isFile = [Entry.file (stagedName 0) (FileContent.image sampleTest)]
      ∧ (run sampleCfg okEnv2 sampleTest sampleMask sampleExemplar 2 staleFS).fs.exemplarDir.filter
          Entry.isFile = [Entry.file (stagedName 0) (FileContent.image sampleExemplar)]) :=
  run_clearing_removes_only_files sampleCfg okEnv2 staleFS sampleTest sampleMask
    sampleExemplar 2 (by decide) (by decide) (by decide)

/-- C7 counterexample: a `run` call whose test image fails size
validation launches no external process at all, so it is not the case
that every `run` call launches exactly one external process. -/
theorem run_spawn_absent_on_invalid_cex :
    (run sampleCfg okEnv2 undersized sampleMask sampleExemplar 1 staleFS).trace.filter
      Event.isSpawn = []
    ∧ ((run sampleCfg okEnv2 undersized sampleMask sampleExemplar 1 staleFS).trace.filter
        Event.isSpawn).length ≠ 1 := by
  exact ⟨rfl, by decide⟩

/-- C7 (amended): a `run` call launches exactly one external process —
synchronously, with working directory the repository root, and with the
argument vector `runScriptCmd` naming the encoder checkpoint, the model
checkpoint, the mask, target and exemplar directories, the requested
`sample_times` and the output directory — precisely when all three
input images pass size validation; a call that fails validation
launches none. -/
theorem run_spawn_characterization
    (cfg : Config) (env : ProcBehavior) (fs : FS)
    (test mask exemplar : PILImage) (n : Int) :
    (run cfg env test mask exemplar n fs).trace.filter Event.isSpawn =
      if test.size = (cfg.sampleSize, cfg.sampleSize)
          ∧ mask.size = (cfg.sampleSize, cfg.sampleSize)
          ∧ exemplar.size = (cfg.sampleSize, cfg.sampleSize)
      then [Event.spawn (runScriptCmd cfg n) cfg.repoRoot]
      else [] := by
  by_cases ht : test.size = (cfg.sampleSize, cfg.sampleSize)
  · by_cases hm : mask.size = (cfg.sampleSize, cfg.sampleSize)
    · by_cases he : exemplar.size = (cfg.sampleSize, cfg.sampleSize)
      · have htr : (run cfg env test mask exemplar n fs).trace = postTrace cfg n fs := by
          by_cases hexit : env.exitCode = 0
          · exact (run_valid_exit_zero cfg env test mask exemplar n fs ht hm he hexit).2.2
          · rw [run_valid_exit_nonzero cfg env test mask exemplar n fs ht hm he hexit]
        rw [htr, if_pos ⟨ht, hm, he⟩]
        simp [postTrace, List.filter_append, clearIoDirs_filter_spawn, stagedEvents,
              Event.isSpawn]
      · rw [run_of_save_error cfg env test mask exemplar n fs _
          (saveTriplet_eq_err_exemplar cfg test mask exemplar 0 _ ht hm he),
          if_neg (by tauto)]
        exact clearIoDirs_filter_spawn cfg fs
    · rw [run_of_save_error cfg env test mask exemplar n fs _
        (saveTriplet_eq_err_mask cfg test mask exemplar 0 _ ht hm),
        if_neg (by tauto)]
      exact clearIoDirs_filter_spawn cfg fs
  · rw [run_of_save_error cfg env test mask exemplar n fs _
      (saveTriplet_eq_err_test cfg test mask exemplar 0 _ ht),
      if_neg (by tauto)]
    exact clearIoDirs_filter_spawn cfg fs

/-- C8: for a valid triple (RGB test, single-channel mask, RGB
exemplar, all of the expected size) the staging step persists each
image as-is — losslessly, channel depth preserved — into its directory
under the filename `0.png`. -/
theorem saveTriplet_persists_lossless
    (cfg : Config) (test mask exemplar : PILImage) (fs : FS)
    (ht : test.size = (cfg.sampleSize, cfg.sampleSize))
    (hm : mask.size = (cfg.sampleSize, cfg.sampleSize))
    (he : exemplar.size = (cfg.sampleSize, cfg.sampleSize))
    (hmt : test.mode = "RGB") (hmm : mask.mode = "L")
    (hme : exemplar.mode = "RGB") :
    saveTriplet cfg test mask exemplar 0 fs =
      .ok (stagedFS test mask exemplar 0 fs, stagedEvents cfg 0)
    ∧ Entry.file (stagedName 0) (FileContent.image test) ∈
        (stagedFS test mask exemplar 0 fs).gtDir
    ∧ Entry.file (stagedName 0) (FileContent.image mask) ∈
        (stagedFS test mask exemplar 0 fs).maskDir
    ∧ Entry.file (stagedName 0) (FileContent.image exemplar) ∈
        (stagedFS test mask exemplar 0 fs).exemplarDir
    ∧ test.mode = "RGB" ∧ mask.mode = "L" ∧ exemplar.mode = "RGB" := by
  refine ⟨saveTriplet_eq_ok cfg test mask exemplar 0 fs ht hm he, ?_, ?_, ?_,
    hmt, hmm, hme⟩ <;>
  simp [stagedFS, writeFile]

theorem saveTriplet_persists_lossless_witness :
    saveTriplet sampleCfg sampleTest sampleMask sampleExemplar 0 staleFS =
      .ok (stagedFS sampleTest sampleMask sampleExemplar 0 staleFS,
           stagedEvents sampleCfg 0)
    ∧ Entry.file (stagedName 0) (FileContent.image sampleTest) ∈
        (stagedFS sampleTest sampleMask sampleExemplar 0 staleFS).gtDir
    ∧ Entry.file (stagedName 0) (FileContent.image sampleMask) ∈
        (stagedFS sampleTest sampleMask sampleExemplar 0 staleFS).maskDir
    ∧ Entry.file (stagedName 0) (FileContent.image sampleExemplar) ∈
        (stagedFS sampleTest sampleMask sampleExemplar 0 staleFS).exemplarDir
    ∧ sampleTest.mode = "RGB" ∧ sampleMask.mode = "L"
    ∧ sampleExemplar.mode = "RGB" :=
  saveTriplet_persists_lossless sampleCfg sampleTest sampleMask sampleExemplar staleFS
    (by decide) (by decide) (by decide) (by decide) (by decide) (by decide)

/-- C9: the constructor's `mkdir` loop creates each of the four staging
directories when absent, keeps an existing one with its contents, and
is idempotent: running it again changes nothing and all four
directories exist afterwards. -/
theorem initDirs_creates_idempotently (l : StagingLayout) :
    (initDirs l).maskDir = some (l.maskDir.getD [])
    ∧ (initDirs l).gtDir = some (l.gtDir.getD [])
    ∧ (initDirs l).exemplarDir = some (l.exemplarDir.getD [])
    ∧ (initDirs l).outDir = some (l.outDir.getD [])
    ∧ initDirs (initDirs l) = initDirs l
    ∧ (initDirs l).maskDir.isSome = true
    ∧ (initDirs l).gtDir.isSome = true
    ∧ (initDirs l).exemplarDir.isSome = true
    ∧ (initDirs l).outDir.isSome = true :=
  ⟨rfl, rfl, rfl, rfl, rfl, rfl, rfl, rfl, rfl⟩

/-- C10: `run` never checks `sample_times ≥ 1`: with valid images and a
non-positive `sample_times`, it still clears the staging directories,
stages the triplet, spawns the external process passing that very
value, and — when the process exits 0 — returns the empty list instead
of raising. -/
theorem run_accepts_nonpositive_sample_times
    (cfg : Config) (env : ProcBehavior) (fs : FS)
    (test mask exemplar : PILImage) (n : Int)
    (hn : n ≤ 0)
    (ht : test.size = (cfg.sampleSize, cfg.sampleSize))
    (hm : mask.size = (cfg.sampleSize, cfg.sampleSize))
    (he : exemplar.size = (cfg.sampleSize, cfg.sampleSize))
    (hexit : env.exitCode = 0) :
    (run cfg env test mask exemplar n fs).outcome = .ok []
    ∧ (run cfg env test mask exemplar n fs).trace = postTrace cfg n fs
    ∧ (run cfg env test mask exemplar n fs).trace.filter Event.isSpawn =
        [Event.spawn (runScriptCmd cfg n) cfg.repoRoot]
    ∧ "--sample_times" ∈ runScriptCmd cfg n
    ∧ toString n ∈ runScriptCmd cfg n
    ∧ (run cfg env test mask exemplar n fs).fs.gtDir.filter Entry.isFile =
        [Entry.file (stagedName 0) (FileContent.image test)] := by
  have h := run_valid_exit_zero cfg env test mask exemplar n fs ht hm he hexit
  have hload : loadOutputs cfg (applyProcWrites (clearDir fs.outDir) env.writes) 0 n =
      .ok [] := by
    rw [loadOutputs, Int.toNat_of_nonpos hn]
    rfl
  refine ⟨h.1.trans hload, h.2.2, ?_, ?_, ?_, ?_⟩
  · rw [h.2.2]
    simp [postTrace, List.filter_append, clearIoDirs_filter_spawn, stagedEvents,
          Event.isSpawn]
  · simp [runScriptCmd]
  · simp [runScriptCmd]
  · rw [h.2.1]
    exact writeFile_files _ _ _ (clearDir_no_files _)

theorem run_accepts_nonpositive_sample_times_witness :
    (run sampleCfg okEnv2 sampleTest sampleMask sampleExemplar (-2) staleFS).outcome =
      .ok []
    ∧ (run sampleCfg okEnv2 sampleTest sampleMask sampleExemplar (-2) staleFS).trace =
        postTrace sampleCfg (-2) staleFS
    ∧ (run sampleCfg okEnv2 sampleTest sampleMask sampleExemplar (-2) staleFS).trace.filter
        Event.isSpawn = [Event.spawn (runScriptCmd sampleCfg (-2)) sampleCfg.repoRoot]
    ∧ "--sample_times" ∈ runScriptCmd sampleCfg (-2)
    ∧ toString (-2 : Int) ∈ runScriptCmd sampleCfg (-2)
    ∧ (run sampleCfg okEnv2 sampleTest sampleMask sampleExemplar (-2) staleFS).fs.gtDir.filter
        Entry.isFile = [Entry.file (stagedName 0) (FileContent.image sampleTest)] :=
  run_accepts_nonpositive_sample_times sampleCfg okEnv2 staleFS sampleTest sampleMask
    sampleExemplar (-2) (by decide) (by decide) (by decide) (by decide) (by decide)
